import Mathlib

/-!
Verification of the compliance-dashboard client logic of the
fintech-cloud-suite repository, as a shallow embedding in Lean.

Modelling conventions:
* TypeScript string-literal unions become inductives; interfaces become
  structures with the same field names.
* Timestamps are modelled as epoch milliseconds (`Nat`); the TypeScript
  code stores ISO strings and converts with `new Date(s).getTime()`, a
  conversion that is outside the model.
* JavaScript `number` is modelled as `Nat` for counts and as `Rat` for
  fractional quantities (scores, percentages before rounding).
* `Array.prototype.sort` is stable (ECMAScript 2019) and orders by the
  comparator; a stable sort ordered by "comparator result is nonpositive"
  is uniquely determined, so it is embedded as `List.insertionSort`, a
  stable sort, over that relation.
-/

/-- Cloud provider, from the `provider` union type. -/
inductive Provider
  | AWS
  | AZURE
  | GCP
deriving DecidableEq

/-- Violation severity, from the `severity` union type. -/
inductive Severity
  | LOW
  | MEDIUM
  | HIGH
  | CRITICAL
deriving DecidableEq

/-- Remediation status of a violation, from the `status` union type. -/
inductive ViolationStatus
  | OPEN
  | IN_PROGRESS
  | RESOLVED
  | ACCEPTED
deriving DecidableEq

/-- Scan execution status, from the `status` union of `ComplianceScanResult`. -/
inductive ScanStatus
  | running
  | completed
  | failed
deriving DecidableEq

/-- `ComplianceFramework` interface. -/
structure ComplianceFramework where
  id : String
  name : String
  control_id : String
  control_description : String
deriving DecidableEq

/-- `CloudResource` interface.  The free-form `configuration` and `tags`
records are modelled as association lists over strings. -/
structure CloudResource where
  id : String
  name : String
  type : String
  provider : Provider
  region : String
  account_id : String
  configuration : List (String × String)
  tags : List (String × String)
  discovered_at : Nat
deriving DecidableEq

/-- `PolicyViolation` interface. -/
structure PolicyViolation where
  violation_id : String
  policy_name : String
  resource : CloudResource
  severity : Severity
  description : String
  remediation : String
  frameworks : List ComplianceFramework
  detected_at : Nat
  status : ViolationStatus
deriving DecidableEq

/-- Violation counts keyed by severity. -/
structure SeverityCounts where
  LOW : Nat
  MEDIUM : Nat
  HIGH : Nat
  CRITICAL : Nat
deriving DecidableEq

/-- `ComplianceScanResult` interface. -/
structure ComplianceScanResult where
  scan_id : String
  status : ScanStatus
  provider : Provider
  total_resources : Nat
  scanned_resources : Nat
  violations_count : Nat
  violations_by_severity : SeverityCounts
  violations : List PolicyViolation
  start_time : Nat
  end_time : Option Nat
  duration : Option Nat
deriving DecidableEq

/-! ## ViolationsTable sorting (ViolationsTable.tsx, `sortedViolations`) -/

/-- The `SortField` union type of ViolationsTable.tsx. -/
inductive SortField
  | detected_at
  | severity
  | policy_name
  | resource_name
  | status
deriving DecidableEq

/-- The `SortDirection` union type of ViolationsTable.tsx. -/
inductive SortDirection
  | asc
  | desc
deriving DecidableEq

/-- The `severityOrder` object literal in the `severity` case of the
comparator: `CRITICAL: 4, HIGH: 3, MEDIUM: 2, LOW: 1`. -/
def severityOrder : Severity → Nat
  | .CRITICAL => 4
  | .HIGH => 3
  | .MEDIUM => 2
  | .LOW => 1

/-- The raw string of a status, as compared in the `status` sort case. -/
def statusString : ViolationStatus → String
  | .OPEN => "OPEN"
  | .IN_PROGRESS => "IN_PROGRESS"
  | .RESOLVED => "RESOLVED"
  | .ACCEPTED => "ACCEPTED"

/-- The tail of the comparator in `sortedViolations`:
`if (aValue < bValue) return sortDirection === 'asc' ? -1 : 1;`
`if (aValue > bValue) return sortDirection === 'asc' ? 1 : -1;`
`return 0;`. -/
def jsCompare {α : Type} [LinearOrder α] (d : SortDirection) (x y : α) : Int :=
  if x < y then (match d with | .asc => -1 | .desc => 1)
  else if y < x then (match d with | .asc => 1 | .desc => -1)
  else 0

/-- The comparator passed to `[...violations].sort`, including the
per-field key extraction (`switch (sortField)`). -/
def violationCompare (f : SortField) (d : SortDirection) (a b : PolicyViolation) : Int :=
  match f with
  | .detected_at => jsCompare d a.detected_at b.detected_at
  | .severity => jsCompare d (severityOrder a.severity) (severityOrder b.severity)
  | .policy_name => jsCompare d a.policy_name.toLower b.policy_name.toLower
  | .resource_name => jsCompare d a.resource.name.toLower b.resource.name.toLower
  | .status => jsCompare d (statusString a.status) (statusString b.status)

/-- The order relation induced by the comparator: `a` may come before `b`. -/
def violationLe (f : SortField) (d : SortDirection) (a b : PolicyViolation) : Prop :=
  violationCompare f d a b ≤ 0

instance violationLeDec (f : SortField) (d : SortDirection) :
    DecidableRel (violationLe f d) :=
  fun a b => Int.decLe (violationCompare f d a b) 0

/-- `sortedViolations`: the stable sort of the violation list by the
comparator (ViolationsTable.tsx lines 42 to 74). -/
def sortedViolations (f : SortField) (d : SortDirection)
    (violations : List PolicyViolation) : List PolicyViolation :=
  List.insertionSort (violationLe f d) violations

/-- Two violations have equal sort keys for a field. -/
def sameKey (f : SortField) (a b : PolicyViolation) : Prop :=
  violationCompare f .asc a b = 0

instance sameKeyDec (f : SortField) (a b : PolicyViolation) :
    Decidable (sameKey f a b) :=
  Int.instDecidableEq (violationCompare f .asc a b) 0

/-! ### Generic facts about the comparator tail -/

theorem jsCompare_asc_nonpos {α : Type} [LinearOrder α] (x y : α) :
    jsCompare .asc x y ≤ 0 ↔ x ≤ y := by
  unfold jsCompare
  split_ifs with h1 h2
  · exact iff_of_true (by decide) (le_of_lt h1)
  · exact iff_of_false (by decide) (not_le.mpr h2)
  · exact iff_of_true (by decide) (le_of_not_lt h2)

theorem jsCompare_desc_nonpos {α : Type} [LinearOrder α] (x y : α) :
    jsCompare .desc x y ≤ 0 ↔ y ≤ x := by
  unfold jsCompare
  split_ifs with h1 h2
  · exact iff_of_false (by decide) (not_le.mpr h1)
  · exact iff_of_true (by decide) (le_of_lt h2)
  · exact iff_of_true (by decide) (le_of_not_lt h1)

theorem jsCompare_eq_zero {α : Type} [LinearOrder α] (d : SortDirection) (x y : α) :
    jsCompare d x y = 0 ↔ x = y := by
  unfold jsCompare
  split_ifs with h1 h2
  · refine iff_of_false ?_ (ne_of_lt h1)
    cases d <;> decide
  · refine iff_of_false ?_ (ne_of_gt h2)
    cases d <;> decide
  · exact iff_of_true rfl (le_antisymm (le_of_not_lt h2) (le_of_not_lt h1))

/-! ### Per-field properties of the comparator relation -/

theorem violationLe_total (f : SortField) (d : SortDirection) (a b : PolicyViolation) :
    violationLe f d a b ∨ violationLe f d b a := by
  cases d <;> cases f <;>
    simp only [violationLe, violationCompare, jsCompare_asc_nonpos, jsCompare_desc_nonpos] <;>
    exact le_total _ _

theorem violationLe_trans (f : SortField) (d : SortDirection) (a b c : PolicyViolation) :
    violationLe f d a b → violationLe f d b c → violationLe f d a c := by
  cases d <;> cases f <;>
    simp only [violationLe, violationCompare, jsCompare_asc_nonpos, jsCompare_desc_nonpos] <;>
    first
    | exact fun h1 h2 => le_trans h1 h2
    | exact fun h1 h2 => le_trans h2 h1

theorem violationLe_desc_swap (f : SortField) (a b : PolicyViolation) :
    violationLe f .desc a b ↔ violationLe f .asc b a := by
  cases f <;>
    simp only [violationLe, violationCompare, jsCompare_asc_nonpos, jsCompare_desc_nonpos]

theorem sameKey_symm (f : SortField) (a b : PolicyViolation) :
    sameKey f a b → sameKey f b a := by
  cases f <;>
    simp only [sameKey, violationCompare, jsCompare_eq_zero] <;>
    exact fun h => h.symm

theorem violationLe_antisymm_key (f : SortField) (d : SortDirection) (a b : PolicyViolation) :
    violationLe f d a b → violationLe f d b a → sameKey f a b := by
  cases d <;> cases f <;>
    simp only [violationLe, sameKey, violationCompare, jsCompare_asc_nonpos,
      jsCompare_desc_nonpos, jsCompare_eq_zero] <;>
    first
    | exact fun h1 h2 => le_antisymm h1 h2
    | exact fun h1 h2 => le_antisymm h2 h1

/-- A permutation that is sorted on both sides by a relation that is
antisymmetric on the elements of the list is an equality. -/
theorem sorted_perm_unique {α : Type} (r : α → α → Prop) :
    ∀ (l1 l2 : List α), l1.Perm l2 → l1.Pairwise r → l2.Pairwise r →
      (∀ a, a ∈ l1 → ∀ b, b ∈ l1 → r a b → r b a → a = b) → l1 = l2 := by
  intro l1
  induction l1 with
  | nil =>
    intro l2 hp _ _ _
    exact hp.nil_eq
  | cons a t1 ih =>
    intro l2 hp hs1 hs2 anti
    cases l2 with
    | nil => exact absurd hp.symm.nil_eq (by simp)
    | cons b t2 =>
      have hab : a = b := by
        by_contra hne
        have hbl1 : b ∈ a :: t1 := hp.mem_iff.mpr (List.mem_cons_self b t2)
        have hal2 : a ∈ b :: t2 := hp.mem_iff.mp (List.mem_cons_self a t1)
        have hrab : r a b := by
          rcases List.mem_cons.mp hbl1 with h | h
          · exact absurd h.symm hne
          · exact (List.pairwise_cons.mp hs1).1 b h
        have hrba : r b a := by
          rcases List.mem_cons.mp hal2 with h | h
          · exact absurd h hne
          · exact (List.pairwise_cons.mp hs2).1 a h
        exact hne (anti a (List.mem_cons_self a t1) b hbl1 hrab hrba)
      subst hab
      have hpt : t1.Perm t2 := hp.cons_inv
      have ht : t1 = t2 :=
        ih t2 hpt (List.pairwise_cons.mp hs1).2 (List.pairwise_cons.mp hs2).2
          (fun x hx y hy => anti x (List.mem_cons_of_mem a hx) y (List.mem_cons_of_mem a hy))
      rw [ht]

/-- Elements at distinct positions of a pairwise-related list are related,
when the relation is symmetric on the elements involved. -/
theorem pairwise_of_mem_ne {α : Type} (r : α → α → Prop)
    (hsym : ∀ a b, r a b → r b a) :
    ∀ (l : List α), l.Pairwise r →
      ∀ a, a ∈ l → ∀ b, b ∈ l → a ≠ b → r a b := by
  intro l
  induction l with
  | nil => intro _ a ha; exact absurd ha (by simp)
  | cons c t ih =>
    intro hp a ha b hb hne
    rcases List.mem_cons.mp ha with rfl | ha2
    · rcases List.mem_cons.mp hb with rfl | hb2
      · exact absurd rfl hne
      · exact (List.pairwise_cons.mp hp).1 b hb2
    · rcases List.mem_cons.mp hb with rfl | hb2
      · exact hsym b a ((List.pairwise_cons.mp hp).1 a ha2)
      · exact ih (List.pairwise_cons.mp hp).2 a ha2 b hb2 hne

/-! ### Demonstration data used by witnesses -/

/-- A concrete cloud resource. -/
def demoResource (nm : String) : CloudResource :=
  { id := "res-" ++ nm
    name := nm
    type := "S3_BUCKET"
    provider := .AWS
    region := "us-east-1"
    account_id := "123456789012"
    configuration := []
    tags := []
    discovered_at := 0 }

/-- A concrete policy violation. -/
def demoViolation (i : String) (sev : Severity) (st : ViolationStatus) (t : Nat) :
    PolicyViolation :=
  { violation_id := i
    policy_name := "s3-encryption-required"
    resource := demoResource i
    severity := sev
    description := "bucket is not encrypted"
    remediation := "enable default encryption"
    frameworks := []
    detected_at := t
    status := st }

/-- One violation of each severity, detected at the same timestamp. -/
def demoViolationList : List PolicyViolation :=
  [demoViolation "v1" .LOW .OPEN 10,
   demoViolation "v2" .CRITICAL .OPEN 10,
   demoViolation "v3" .MEDIUM .OPEN 10,
   demoViolation "v4" .HIGH .OPEN 10]

/-- Two violations with distinct severities. -/
def demoViolationPair : List PolicyViolation :=
  [demoViolation "w1" .HIGH .OPEN 5, demoViolation "w2" .LOW .OPEN 7]

/-! ### Claim C1 -/

/-- C1: sorting by the severity field in descending direction orders the
rows by the rank CRITICAL(4) > HIGH(3) > MEDIUM(2) > LOW(1) — every pair
of adjacent-or-later rows has a rank no larger than its predecessor — and
a list containing exactly one violation of each severity level sorts
descending to the severity sequence [CRITICAL, HIGH, MEDIUM, LOW]. -/
theorem severity_sort_desc_orders_by_rank (l : List PolicyViolation) :
    (sortedViolations .severity .desc l).Pairwise
        (fun a b => severityOrder b.severity ≤ severityOrder a.severity)
    ∧ ((l.map (fun v => v.severity)).Perm
          [Severity.CRITICAL, Severity.HIGH, Severity.MEDIUM, Severity.LOW] →
        (sortedViolations .severity .desc l).map (fun v => v.severity)
          = [Severity.CRITICAL, Severity.HIGH, Severity.MEDIUM, Severity.LOW]) := by
  have hsorted : (sortedViolations .severity .desc l).Pairwise (violationLe .severity .desc) := by
    haveI : IsTotal PolicyViolation (violationLe .severity .desc) :=
      ⟨fun a b => violationLe_total .severity .desc a b⟩
    haveI : IsTrans PolicyViolation (violationLe .severity .desc) :=
      ⟨fun a b c => violationLe_trans .severity .desc a b c⟩
    exact List.sorted_insertionSort _ l
  have himp : ∀ a b : PolicyViolation, violationLe .severity .desc a b →
      severityOrder b.severity ≤ severityOrder a.severity :=
    fun a b h => (jsCompare_desc_nonpos (severityOrder a.severity) (severityOrder b.severity)).mp h
  refine ⟨hsorted.imp (fun h => himp _ _ h), fun hperm => ?_⟩
  have hmp : ((sortedViolations .severity .desc l).map (fun v => v.severity)).Perm
      [Severity.CRITICAL, Severity.HIGH, Severity.MEDIUM, Severity.LOW] :=
    ((List.perm_insertionSort (violationLe .severity .desc) l).map (fun v => v.severity)).trans hperm
  have hms : ((sortedViolations .severity .desc l).map (fun v => v.severity)).Pairwise
      (fun x y : Severity => severityOrder y ≤ severityOrder x) :=
    List.pairwise_map.mpr (hsorted.imp (fun h => himp _ _ h))
  exact sorted_perm_unique (fun x y : Severity => severityOrder y ≤ severityOrder x)
    _ _ hmp hms (by decide)
    (fun a _ b _ h1 h2 => by cases a <;> cases b <;> revert h1 h2 <;> decide)

/-- Witness for C1: the concrete one-per-severity list sorts descending to
[CRITICAL, HIGH, MEDIUM, LOW]. -/
theorem severity_sort_desc_orders_by_rank_witness :
    (sortedViolations .severity .desc demoViolationList).map (fun v => v.severity)
      = [Severity.CRITICAL, Severity.HIGH, Severity.MEDIUM, Severity.LOW] :=
  (severity_sort_desc_orders_by_rank demoViolationList).2 (by decide)

/-! ### Claim C2 -/

/-- C2: for every violation list and every sort field, when no two
elements have equal sort keys, sorting ascending and then re-sorting that
result descending yields the exact reverse sequence. -/
theorem sort_asc_then_desc_reverses (f : SortField) (l : List PolicyViolation)
    (hkeys : l.Pairwise (fun a b => ¬ sameKey f a b)) :
    sortedViolations f .desc (sortedViolations f .asc l)
      = (sortedViolations f .asc l).reverse := by
  have hperm_s : (sortedViolations f .asc l).Perm l := List.perm_insertionSort _ l
  have hs : (sortedViolations f .asc l).Pairwise (violationLe f .asc) := by
    haveI : IsTotal PolicyViolation (violationLe f .asc) :=
      ⟨fun a b => violationLe_total f .asc a b⟩
    haveI : IsTrans PolicyViolation (violationLe f .asc) :=
      ⟨fun a b c => violationLe_trans f .asc a b c⟩
    exact List.sorted_insertionSort _ l
  have hkeys_s : (sortedViolations f .asc l).Pairwise (fun a b => ¬ sameKey f a b) :=
    hkeys.perm hperm_s.symm (fun h hyx => h (sameKey_symm f _ _ hyx))
  have hrev : (sortedViolations f .asc l).reverse.Pairwise (violationLe f .desc) := by
    rw [List.pairwise_reverse]
    exact hs.imp (fun h => (violationLe_desc_swap f _ _).mpr h)
  have hperm_t : (sortedViolations f .desc (sortedViolations f .asc l)).Perm
      (sortedViolations f .asc l) := List.perm_insertionSort _ _
  have ht : (sortedViolations f .desc (sortedViolations f .asc l)).Pairwise
      (violationLe f .desc) := by
    haveI : IsTotal PolicyViolation (violationLe f .desc) :=
      ⟨fun a b => violationLe_total f .desc a b⟩
    haveI : IsTrans PolicyViolation (violationLe f .desc) :=
      ⟨fun a b c => violationLe_trans f .desc a b c⟩
    exact List.sorted_insertionSort _ _
  refine sorted_perm_unique (violationLe f .desc) _ _
    (hperm_t.trans (sortedViolations f .asc l).reverse_perm.symm) ht hrev ?_
  intro a ha b hb h1 h2
  by_contra hne
  have ha_s : a ∈ sortedViolations f .asc l := hperm_t.subset ha
  have hb_s : b ∈ sortedViolations f .asc l := hperm_t.subset hb
  exact pairwise_of_mem_ne (fun a b => ¬ sameKey f a b)
      (fun x y h hyx => h (sameKey_symm f y x hyx))
      _ hkeys_s a ha_s b hb_s hne
    (violationLe_antisymm_key f .desc a b h1 h2)

/-- Witness for C2 at the severity field on a concrete two-element list
with distinct keys. -/
theorem sort_asc_then_desc_reverses_witness :
    sortedViolations .severity .desc (sortedViolations .severity .asc demoViolationPair)
      = (sortedViolations .severity .asc demoViolationPair).reverse :=
  sort_asc_then_desc_reverses .severity demoViolationPair (by decide)

/-! ### Claim C10 -/

/-- C10: the sort is pure with respect to its input — for every violation
list and every sort field and direction, the sorted output is a
permutation of the input (same elements, same multiplicities).  The
source copies the array (`[...violations]`) before calling `sort`, and
the embedding is a pure function, so the input is left unmodified by
construction. -/
theorem sortedViolations_permutation (f : SortField) (d : SortDirection)
    (l : List PolicyViolation) : (sortedViolations f d l).Perm l :=
  List.perm_insertionSort (violationLe f d) l

/-! ## ViolationsTable selection (select-all checkbox, lines 174 to 185)

The selection state `selectedViolations` is a JS `Set<string>` of
violation ids, modelled as a `Finset String`.  The select-all checkbox
renders as checked when
`selectedViolations.size === violations.length && violations.length > 0`;
a click delivers the negated checked state in `e.target.checked`: when it
is true the handler replaces the selection by
`new Set(violations.map(v => v.violation_id))`, otherwise by the empty
set. -/

/-- The set of all currently-visible violation ids:
`new Set(violations.map(v => v.violation_id))`. -/
def visibleIds (violations : List PolicyViolation) : Finset String :=
  (violations.map (fun v => v.violation_id)).toFinset

/-- The rendered `checked` attribute of the select-all checkbox. -/
def selectAllChecked (selectedViolations : Finset String)
    (violations : List PolicyViolation) : Bool :=
  selectedViolations.card == violations.length && decide (violations.length > 0)

/-- One click on the select-all checkbox: `e.target.checked` is the
negation of the rendered checked state, so an unchecked box selects all
visible ids and a checked box clears the selection. -/
def toggleAll (selectedViolations : Finset String)
    (violations : List PolicyViolation) : Finset String :=
  if selectAllChecked selectedViolations violations then ∅
  else visibleIds violations

/-! ### Claim C3 -/

/-- Counterexample for C3 as stated: the selection holding the single
stale id "ghost" does not contain the visible id of the one-element
violation list, so not all visible ids are selected, yet one toggle-all
clears the selection instead of selecting all visible ids — the checkbox
compares only cardinalities (`size === length`). -/
theorem toggleAll_counterexample :
    (¬ ∀ i ∈ visibleIds [demoViolation "v1" .LOW .OPEN 10], i ∈ ({"ghost"} : Finset String))
    ∧ toggleAll {"ghost"} [demoViolation "v1" .LOW .OPEN 10]
        ≠ visibleIds [demoViolation "v1" .LOW .OPEN 10] := by
  constructor
  · intro h
    have := h "v1" (by decide)
    revert this
    decide
  · decide

/-- C3 (amended): for a selection that is a subset of the visible ids and
a violation list with pairwise-distinct ids, toggle-all alternates the two
extreme states: from a not-all-selected state one toggle selects exactly
the visible ids and a second clears the selection; from the all-selected
state of a nonempty list one toggle clears and a second selects all. -/
theorem toggleAll_two_state (violations : List PolicyViolation) (sel : Finset String)
    (hnd : (violations.map (fun v => v.violation_id)).Nodup)
    (hsub : sel ⊆ visibleIds violations) :
    (sel ≠ visibleIds violations →
        toggleAll sel violations = visibleIds violations ∧
        toggleAll (toggleAll sel violations) violations = ∅) ∧
    (sel = visibleIds violations → violations ≠ [] →
        toggleAll sel violations = ∅ ∧
        toggleAll (toggleAll sel violations) violations = visibleIds violations) := by
  have hcard : (visibleIds violations).card = violations.length := by
    rw [visibleIds, List.toFinset_card_of_nodup hnd, List.length_map]
  constructor
  · intro hne
    have hlt : sel.card < (visibleIds violations).card :=
      Finset.card_lt_card (Finset.ssubset_iff_subset_ne.mpr ⟨hsub, hne⟩)
    have hchk : selectAllChecked sel violations = false := by
      have : sel.card ≠ violations.length := by omega
      simp [selectAllChecked, this]
    have hpos : 0 < violations.length := by omega
    have hfirst : toggleAll sel violations = visibleIds violations := by
      rw [toggleAll, hchk]
      simp
    refine ⟨hfirst, ?_⟩
    have hchk2 : selectAllChecked (visibleIds violations) violations = true := by
      simp [selectAllChecked, hcard, hpos]
    rw [hfirst, toggleAll, hchk2]
    simp
  · intro hall hnonempty
    have hpos : 0 < violations.length := List.length_pos.mpr hnonempty
    have hchk : selectAllChecked sel violations = true := by
      simp [selectAllChecked, hall, hcard, hpos]
    have hfirst : toggleAll sel violations = ∅ := by
      rw [toggleAll, hchk]
      simp
    refine ⟨hfirst, ?_⟩
    have hchk2 : selectAllChecked (∅ : Finset String) violations = false := by
      simp only [selectAllChecked, Finset.card_empty, Bool.and_eq_false_imp, beq_iff_eq]
      intro h
      omega
    rw [hfirst, toggleAll, hchk2]
    simp

/-- Witness for C3 (amended): from the empty selection over the concrete
one-per-severity list, one toggle selects all four ids, a second clears. -/
theorem toggleAll_two_state_witness :
    toggleAll ∅ demoViolationList = visibleIds demoViolationList ∧
    toggleAll (toggleAll ∅ demoViolationList) demoViolationList = ∅ :=
  (toggleAll_two_state demoViolationList ∅ (by decide) (by decide)).1 (by decide)

/-! ## ViolationsTable status control (lines 286 to 301)

The inline status select is rendered only under the guard
`violation.status === 'OPEN'`.  Its options are the empty placeholder
plus IN_PROGRESS, RESOLVED and ACCEPTED; the change handler ignores the
empty value (`if (e.target.value)`), so the selectable targets are the
three non-empty options. -/

/-- The non-placeholder option values of the status select, the statuses
a user can actually choose. -/
def statusUpdateTargets : List ViolationStatus :=
  [.IN_PROGRESS, .RESOLVED, .ACCEPTED]

/-- The inline status-change control rendered for a violation row:
`some` of the selectable targets when the row status is OPEN, absent
otherwise. -/
def statusControl (v : PolicyViolation) : Option (List ViolationStatus) :=
  if v.status = .OPEN then some statusUpdateTargets else none

/-! ### Claim C4 -/

/-- C4: a violation row exposes the inline status-change control exactly
when its status is OPEN, the selectable targets are exactly IN_PROGRESS,
RESOLVED and ACCEPTED, and no transition back to OPEN is offered. -/
theorem statusControl_gating (v : PolicyViolation) :
    (v.status = .OPEN →
        statusControl v = some [.IN_PROGRESS, .RESOLVED, .ACCEPTED]) ∧
    (v.status ≠ .OPEN → statusControl v = none) ∧
    ViolationStatus.OPEN ∉ statusUpdateTargets := by
  refine ⟨fun h => ?_, fun h => ?_, by decide⟩
  · rw [statusControl, if_pos h]
    rfl
  · rw [statusControl, if_neg h]

/-- Witness for C4: a concrete OPEN violation exposes the three targets,
and a concrete RESOLVED violation exposes no control. -/
theorem statusControl_gating_witness :
    statusControl (demoViolation "v1" .LOW .OPEN 10)
        = some [.IN_PROGRESS, .RESOLVED, .ACCEPTED] ∧
    statusControl (demoViolation "v2" .LOW .RESOLVED 10) = none :=
  ⟨(statusControl_gating (demoViolation "v1" .LOW .OPEN 10)).1 rfl,
   (statusControl_gating (demoViolation "v2" .LOW .RESOLVED 10)).2.1 (by decide)⟩

/-! ## API client error normalization (complianceApi, `handleApiError`)

An axios failure carries an optional server response (`error.response`),
a flag for a dispatched-but-unanswered request (`error.request`), and a
client-side message.  The response body fields are optional strings;
JavaScript `x || d` falls back on both `undefined` and the empty
string. -/

/-- The normalized `ApiError` shape. -/
structure ApiError where
  code : String
  message : String
  details : Option String
  request_id : String
deriving DecidableEq

/-- The (partial) error payload `error.response.data`. -/
structure ErrorResponseData where
  code : Option String
  message : Option String
  details : Option String
  request_id : Option String
deriving DecidableEq

/-- A server error response: HTTP status plus payload. -/
structure ErrorResponse where
  status : Nat
  data : ErrorResponseData
deriving DecidableEq

/-- The parts of an `AxiosError` read by `handleApiError`. -/
structure AxiosErrorInfo where
  response : Option ErrorResponse
  hasRequest : Bool
  message : String
deriving DecidableEq

/-- JavaScript `x || d` for an optional string `x`: `undefined` and the
empty string are falsy. -/
def jsOrString (x : Option String) (d : String) : String :=
  match x with
  | some s => if s = "" then d else s
  | none => d

/-- `ComplianceApiService.handleApiError` (App.tsx lines 101 to 126):
normalize an axios failure into an `ApiError`. -/
def handleApiError (error : AxiosErrorInfo) : ApiError :=
  match error.response with
  | some resp =>
      { code := jsOrString resp.data.code ("HTTP_" ++ toString resp.status)
        message := jsOrString resp.data.message error.message
        details := resp.data.details
        request_id := jsOrString resp.data.request_id "unknown" }
  | none =>
      if error.hasRequest then
        { code := "NETWORK_ERROR"
          message := "Unable to connect to compliance service"
          details := none
          request_id := "unknown" }
      else
        { code := "REQUEST_ERROR"
          message := error.message
          details := none
          request_id := "unknown" }

/-! ### Claim C5 -/

/-- C5: when the server responded with an error payload carrying a code
and a message, the normalized error passes them through together with the
payload details; with no response but a dispatched request the code is
NETWORK_ERROR; any other client-side failure yields REQUEST_ERROR with
the original message; and in every case the normalized error carries a
nonempty request id. -/
theorem handleApiError_normalization :
    (∀ (e : AxiosErrorInfo) (resp : ErrorResponse) (c m : String),
        e.response = some resp → resp.data.code = some c → c ≠ "" →
        resp.data.message = some m → m ≠ "" →
        (handleApiError e).code = c ∧ (handleApiError e).message = m ∧
        (handleApiError e).details = resp.data.details) ∧
    (∀ e : AxiosErrorInfo, e.response = none → e.hasRequest = true →
        handleApiError e =
          { code := "NETWORK_ERROR"
            message := "Unable to connect to compliance service"
            details := none
            request_id := "unknown" }) ∧
    (∀ e : AxiosErrorInfo, e.response = none → e.hasRequest = false →
        (handleApiError e).code = "REQUEST_ERROR" ∧
        (handleApiError e).message = e.message) ∧
    (∀ e : AxiosErrorInfo, (handleApiError e).request_id ≠ "") := by
  refine ⟨?_, ?_, ?_, ?_⟩
  · intro e resp c m hresp hc hcne hm hmne
    simp [handleApiError, hresp, hc, hm, jsOrString, if_neg hcne, if_neg hmne]
  · intro e hresp hreq
    rw [handleApiError, hresp]
    simp [hreq]
  · intro e hresp hreq
    rw [handleApiError, hresp]
    simp [hreq]
  · intro e
    rw [handleApiError]
    cases hresp : e.response with
    | some resp =>
      cases hrid : resp.data.request_id with
      | some s =>
        by_cases hs : s = ""
        · simp [jsOrString, hrid, hs]
        · simp [jsOrString, hrid, hs]
      | none => simp [jsOrString, hrid]
    | none =>
      by_cases hreq : e.hasRequest
      · simp [hreq]
      · simp [hreq]

/-- A concrete server error payload. -/
def demoServerError : AxiosErrorInfo :=
  { response := some
      { status := 422
        data :=
          { code := some "POLICY_BUNDLE_INVALID"
            message := some "unknown policy bundle"
            details := some "bundle cis-1.4 not found"
            request_id := some "req-42" } }
    hasRequest := true
    message := "Request failed with status code 422" }

/-- A concrete network failure (request sent, no response). -/
def demoNetworkError : AxiosErrorInfo :=
  { response := none
    hasRequest := true
    message := "timeout of 30000ms exceeded" }

/-- A concrete request-configuration failure. -/
def demoRequestError : AxiosErrorInfo :=
  { response := none
    hasRequest := false
    message := "invalid URL" }

/-- Witness for C5 at the three concrete failures. -/
theorem handleApiError_normalization_witness :
    (handleApiError demoServerError).code = "POLICY_BUNDLE_INVALID" ∧
    (handleApiError demoNetworkError).code = "NETWORK_ERROR" ∧
    (handleApiError demoRequestError).code = "REQUEST_ERROR" := by
  refine ⟨?_, ?_, ?_⟩
  · exact (handleApiError_normalization.1 demoServerError
      { status := 422
        data :=
          { code := some "POLICY_BUNDLE_INVALID"
            message := some "unknown policy bundle"
            details := some "bundle cis-1.4 not found"
            request_id := some "req-42" } }
      "POLICY_BUNDLE_INVALID" "unknown policy bundle"
      rfl rfl (by decide) rfl (by decide)).1
  · rw [(handleApiError_normalization.2.1 demoNetworkError rfl rfl)]
  · exact (handleApiError_normalization.2.2.1 demoRequestError rfl rfl).1

/-! ## API client operations (ComplianceApiService)

Every method issues one HTTP call through the shared axios instance.  The
response interceptor passes successful responses through and rejects
failures with `handleApiError`, so from inside a method the awaited call
either yields the success response or throws a normalized `ApiError`.
This outcome is the input of each operation below; the operation result
is the settled promise, `Except ApiError` of the typed payload. -/

/-- The success envelope `ApiResponse<T>`: `response.data` of a
successful axios call. -/
structure ApiResponse (T : Type) where
  data : T
  message : String
  timestamp : String
  request_id : String

/-- What an operation observes from its awaited HTTP call: the HTTP
status and body on success, or the failure the interceptor rejected
with. -/
inductive ApiOutcome (T : Type)
  | success (status : Nat) (body : T)
  | failure (error : AxiosErrorInfo)

/-- `POST /scan` payload. -/
structure ScanStartAck where
  scan_id : String
  status : String
  message : String

/-- `GET /dashboard/metrics` payload (`ComplianceDashboardMetrics`). -/
structure FrameworkCompliance where
  framework : ComplianceFramework
  compliance_percentage : Rat
  violations_count : Nat

/-- One point of the historical compliance trend. -/
structure TrendEntry where
  date : String
  compliance_score : Rat
  violations_count : Nat

/-- `ComplianceDashboardMetrics` interface. -/
structure ComplianceDashboardMetrics where
  compliance_score : Rat
  total_resources : Nat
  compliant_resources : Nat
  non_compliant_resources : Nat
  violations_by_severity : SeverityCounts
  violations_by_provider : Provider → Nat
  compliance_by_framework : List FrameworkCompliance
  compliance_trend : List TrendEntry

/-- `GET /violations` payload. -/
structure ViolationsPage where
  violations : List PolicyViolation
  total_count : Nat
  page : Nat
  page_size : Nat
  total_pages : Nat

/-- `GET /policies` payload entry. -/
structure PolicySummary where
  name : String
  description : String
  frameworks : List String
  resource_types : List String

/-- `GET /dashboard/trend` payload entry. -/
structure TrendPoint where
  date : String
  compliance_score : Rat
  violations_count : Nat
  scanned_resources : Nat

/-- `healthCheck`: `GET /health`, resolves `response.status === 200`; the
`catch` block logs and resolves `false` on any failure. -/
def healthCheck (outcome : ApiOutcome (ApiResponse Unit)) : Except ApiError Bool :=
  match outcome with
  | .success status _ => .ok (status == 200)
  | .failure _ => .ok false

/-- `startComplianceScan`: `POST /scan`, unwraps `response.data.data`. -/
def startComplianceScan (outcome : ApiOutcome (ApiResponse ScanStartAck)) :
    Except ApiError ScanStartAck :=
  match outcome with
  | .success _ body => .ok body.data
  | .failure e => .error (handleApiError e)

/-- `getScanStatus`: `GET /scan/id/status`, unwraps the envelope. -/
def getScanStatus (outcome : ApiOutcome (ApiResponse ComplianceScanResult)) :
    Except ApiError ComplianceScanResult :=
  match outcome with
  | .success _ body => .ok body.data
  | .failure e => .error (handleApiError e)

/-- `getScanResults`: `GET /scan/id/results`, unwraps the envelope. -/
def getScanResults (outcome : ApiOutcome (ApiResponse ComplianceScanResult)) :
    Except ApiError ComplianceScanResult :=
  match outcome with
  | .success _ body => .ok body.data
  | .failure e => .error (handleApiError e)

/-- `getDashboardMetrics`: `GET /dashboard/metrics`, unwraps the envelope. -/
def getDashboardMetrics (outcome : ApiOutcome (ApiResponse ComplianceDashboardMetrics)) :
    Except ApiError ComplianceDashboardMetrics :=
  match outcome with
  | .success _ body => .ok body.data
  | .failure e => .error (handleApiError e)

/-- `getViolations`: `GET /violations`, unwraps the envelope. -/
def getViolations (outcome : ApiOutcome (ApiResponse ViolationsPage)) :
    Except ApiError ViolationsPage :=
  match outcome with
  | .success _ body => .ok body.data
  | .failure e => .error (handleApiError e)

/-- `getPolicies`: `GET /policies`, unwraps the envelope. -/
def getPolicies (outcome : ApiOutcome (ApiResponse (List PolicySummary))) :
    Except ApiError (List PolicySummary) :=
  match outcome with
  | .success _ body => .ok body.data
  | .failure e => .error (handleApiError e)

/-- `updateViolationStatus`: `PATCH /violations/id/status`, resolves with
no content. -/
def updateViolationStatus (outcome : ApiOutcome (ApiResponse Unit)) :
    Except ApiError Unit :=
  match outcome with
  | .success _ _ => .ok ()
  | .failure e => .error (handleApiError e)

/-- `getComplianceTrend`: `GET /dashboard/trend`, unwraps the envelope. -/
def getComplianceTrend (outcome : ApiOutcome (ApiResponse (List TrendPoint))) :
    Except ApiError (List TrendPoint) :=
  match outcome with
  | .success _ body => .ok body.data
  | .failure e => .error (handleApiError e)

/-! ### Claim C6 -/

/-- Counterexample for C6 as stated: on a concrete network failure the
health-check operation does not fail with the normalized error — it
swallows the failure and resolves with the substitute value `false`. -/
theorem healthCheck_swallows_failure :
    healthCheck (ApiOutcome.failure demoNetworkError) = Except.ok false ∧
    healthCheck (ApiOutcome.failure demoNetworkError)
      ≠ Except.error (handleApiError demoNetworkError) := by
  refine ⟨rfl, ?_⟩
  intro h
  exact Except.noConfusion h

/-- C6 (amended): each of the eight data operations either resolves with
its typed payload (the unwrapped envelope `data`) or fails with the
normalized error of its failure; the health check instead resolves
`status == 200` on success and swallows every failure, resolving the
substitute value `false`. -/
theorem apiOperations_settle :
    (∀ e : AxiosErrorInfo,
        startComplianceScan (.failure e) = .error (handleApiError e) ∧
        getScanStatus (.failure e) = .error (handleApiError e) ∧
        getScanResults (.failure e) = .error (handleApiError e) ∧
        getDashboardMetrics (.failure e) = .error (handleApiError e) ∧
        getViolations (.failure e) = .error (handleApiError e) ∧
        getPolicies (.failure e) = .error (handleApiError e) ∧
        updateViolationStatus (.failure e) = .error (handleApiError e) ∧
        getComplianceTrend (.failure e) = .error (handleApiError e) ∧
        healthCheck (.failure e) = .ok false) ∧
    (∀ (st : Nat) (b : ApiResponse ScanStartAck),
        startComplianceScan (.success st b) = .ok b.data) ∧
    (∀ (st : Nat) (b : ApiResponse ComplianceScanResult),
        getScanStatus (.success st b) = .ok b.data ∧
        getScanResults (.success st b) = .ok b.data) ∧
    (∀ (st : Nat) (b : ApiResponse ComplianceDashboardMetrics),
        getDashboardMetrics (.success st b) = .ok b.data) ∧
    (∀ (st : Nat) (b : ApiResponse ViolationsPage),
        getViolations (.success st b) = .ok b.data) ∧
    (∀ (st : Nat) (b : ApiResponse (List PolicySummary)),
        getPolicies (.success st b) = .ok b.data) ∧
    (∀ (st : Nat) (b : ApiResponse Unit),
        updateViolationStatus (.success st b) = .ok () ∧
        healthCheck (.success st b) = .ok (st == 200)) ∧
    (∀ (st : Nat) (b : ApiResponse (List TrendPoint)),
        getComplianceTrend (.success st b) = .ok b.data) :=
  ⟨fun _ => ⟨rfl, rfl, rfl, rfl, rfl, rfl, rfl, rfl, rfl⟩,
   fun _ _ => rfl,
   fun _ _ => ⟨rfl, rfl⟩,
   fun _ _ => rfl,
   fun _ _ => rfl,
   fun _ _ => rfl,
   fun _ _ => ⟨rfl, rfl⟩,
   fun _ _ => rfl⟩

/-! ## ScanProgress (ScanProgress component)

`progressPercentage` is computed from the held scan; the 5-second polling
interval is installed by a `useEffect` keyed on the scan status, and
`updateScanStatus` replaces the held scan with the fetched one and invokes
the scan-complete callback whenever the fetched status is `completed`. -/

/-- `Math.round` on a finite value: round half toward positive
infinity.  JavaScript number arithmetic is modelled over `Rat`. -/
def jsRound (q : Rat) : Int :=
  ⌊q + 1 / 2⌋

/-- `progressPercentage` (ScanProgress, lines 779 to 781):
`scan.total_resources > 0 ? Math.round((scan.scanned_resources / scan.total_resources) * 100) : 0`. -/
def progressPercentage (scan : ComplianceScanResult) : Int :=
  if scan.total_resources > 0 then
    jsRound ((scan.scanned_resources : Rat) / (scan.total_resources : Rat) * 100)
  else 0

/-! ### Claim C7 -/

/-- C7: the displayed progress percentage is round(scanned / total × 100)
when total is positive — characterized arithmetically as the integer
division (200·scanned + total) / (2·total) — and is 0 when total is 0
regardless of scanned; total = 200 with scanned = 50 yields 25. -/
theorem progressPercentage_spec :
    (∀ scan : ComplianceScanResult, scan.total_resources = 0 →
        progressPercentage scan = 0) ∧
    (∀ scan : ComplianceScanResult, 0 < scan.total_resources →
        progressPercentage scan =
          ((200 * scan.scanned_resources + scan.total_resources) /
            (2 * scan.total_resources) : Nat)) ∧
    (∀ scan : ComplianceScanResult,
        scan.total_resources = 200 → scan.scanned_resources = 50 →
        progressPercentage scan = 25) := by
  have hmain : ∀ scan : ComplianceScanResult, 0 < scan.total_resources →
      progressPercentage scan =
        ((200 * scan.scanned_resources + scan.total_resources) /
          (2 * scan.total_resources) : Nat) := by
    intro scan h
    rw [progressPercentage, if_pos h, jsRound]
    have ht : (scan.total_resources : Rat) ≠ 0 := by
      exact_mod_cast Nat.pos_iff_ne_zero.mp h
    have key : (scan.scanned_resources : Rat) / (scan.total_resources : Rat) * 100 + 1 / 2
        = ((200 * scan.scanned_resources + scan.total_resources : Nat) : Int)
          / ((2 * scan.total_resources : Nat) : Rat) := by
      push_cast
      field_simp
      ring
    rw [key, Rat.floor_intCast_div_natCast]
    norm_cast
  refine ⟨?_, hmain, ?_⟩
  · intro scan h
    simp [progressPercentage, h]
  · intro scan h1 h2
    rw [hmain scan (by omega), h1, h2]
    norm_num

/-- A concrete scan result. -/
def demoScan (st : ScanStatus) (total scanned : Nat) : ComplianceScanResult :=
  { scan_id := "scan-1"
    status := st
    provider := .GCP
    total_resources := total
    scanned_resources := scanned
    violations_count := 0
    violations_by_severity := { LOW := 0, MEDIUM := 0, HIGH := 0, CRITICAL := 0 }
    violations := []
    start_time := 0
    end_time := none
    duration := none }

/-- Witness for C7: 50 of 200 resources shows 25 percent, and a scan with
no resources shows 0 percent. -/
theorem progressPercentage_spec_witness :
    progressPercentage (demoScan .running 200 50) = 25 ∧
    progressPercentage (demoScan .running 0 77) = 0 :=
  ⟨progressPercentage_spec.2.2 (demoScan .running 200 50) rfl rfl,
   progressPercentage_spec.1 (demoScan .running 0 77) rfl⟩

/-! ### Polling and the scan-complete callback

The view state that matters for polling is the held scan status, whether
the 5-second interval is installed, and how often the scan-complete
callback has fired.  The `useEffect` keyed on `[scan.status, scan.scan_id]`
installs an interval exactly when the held status is `running` and clears
it on cleanup, so after mount and after every applied fetch the interval
is installed iff the held status is `running`.  `updateScanStatus`
replaces the held scan by the fetched one and invokes `onScanComplete`
whenever the fetched status is `completed`; it is called both by the
interval (automatic poll) and by the Refresh button (manual). -/

/-- The polling-relevant state of one ScanProgress instance. -/
structure ScanView where
  scanStatus : ScanStatus
  intervalActive : Bool
  completeCalls : Nat
deriving DecidableEq

/-- The polling interval in milliseconds: `setInterval(updateScanStatus, 5000)`. -/
def pollIntervalMs : Nat := 5000

/-- A scan status is terminal when it is completed or failed. -/
def terminal : ScanStatus → Bool
  | .running => false
  | .completed => true
  | .failed => true

/-- Mounting the component with an initial scan: the effect runs once,
installing the interval iff the scan is running. -/
def mountView (scan : ComplianceScanResult) : ScanView :=
  { scanStatus := scan.status
    intervalActive := scan.status == .running
    completeCalls := 0 }

/-- One completed `updateScanStatus` call observing the fetched status:
`setScan(updatedScan)`, the conditional `onScanComplete()` invocation,
and the effect re-run that re-derives the interval from the new status. -/
def viewAfterFetch (s : ScanView) (fetched : ScanStatus) : ScanView :=
  { scanStatus := fetched
    intervalActive := fetched == .running
    completeCalls := s.completeCalls + (if fetched = .completed then 1 else 0) }

/-- A status fetch and where it came from: an automatic interval tick or
the manual Refresh button. -/
inductive FetchEvent
  | auto (fetched : ScanStatus)
  | manual (fetched : ScanStatus)
deriving DecidableEq

/-- The status reported by a fetch event. -/
def eventResponse : FetchEvent → ScanStatus
  | .auto r => r
  | .manual r => r

/-- One event against the view: an automatic tick can only fire while the
interval is installed; a manual refresh is always possible. -/
def stepView (s : ScanView) : FetchEvent → Option ScanView
  | .auto fetched => if s.intervalActive then some (viewAfterFetch s fetched) else none
  | .manual fetched => some (viewAfterFetch s fetched)

/-- Run a sequence of fetch events; `none` when an automatic tick would
have to fire with no interval installed. -/
def runViewEvents (s : ScanView) : List FetchEvent → Option ScanView
  | [] => some s
  | e :: rest =>
    match stepView s e with
    | some s2 => runViewEvents s2 rest
    | none => none

/-- From a state with no interval, a valid trace all of whose responses
exist cannot begin with an automatic tick; if moreover every response is
terminal the interval stays uninstalled for the whole trace. -/
theorem runViewEvents_inactive_terminal (evs : List FetchEvent) :
    ∀ (s s2 : ScanView), s.intervalActive = false →
      (∀ e ∈ evs, terminal (eventResponse e) = true) →
      runViewEvents s evs = some s2 →
      (∀ r : ScanStatus, FetchEvent.auto r ∉ evs) ∧ s2.intervalActive = false := by
  induction evs with
  | nil =>
    intro s s2 hinact _ hrun
    refine ⟨fun r => by simp, ?_⟩
    simp only [runViewEvents, Option.some.injEq] at hrun
    rw [← hrun]
    exact hinact
  | cons e rest ih =>
    intro s s2 hinact hterm hrun
    cases e with
    | auto r =>
      rw [runViewEvents] at hrun
      simp only [stepView, hinact] at hrun
      exact absurd hrun (by simp)
    | manual r =>
      rw [runViewEvents] at hrun
      simp only [stepView] at hrun
      have hrt : terminal r = true := hterm (.manual r) (by simp)
      have hinact2 : (viewAfterFetch s r).intervalActive = false := by
        cases r <;> simp_all [viewAfterFetch, terminal]
      have hrest := ih (viewAfterFetch s r) s2 hinact2
        (fun e he => hterm e (List.mem_cons_of_mem _ he)) hrun
      refine ⟨fun q hq => ?_, hrest.2⟩
      rcases List.mem_cons.mp hq with hq1 | hq2
      · exact FetchEvent.noConfusion hq1
      · exact hrest.1 q hq2

/-! ### Claim C8 -/

/-- C8: a fetch whose response is terminal (completed or failed) leaves
the interval uninstalled, and from then on — through any further fetches
whose responses remain terminal — no automatic 5-second tick can fire and
the interval stays uninstalled; a fetch observing `running` keeps the
interval installed, and the interval period is 5000 milliseconds. -/
theorem scan_polling_terminates :
    (∀ (s : ScanView) (fetched : ScanStatus), terminal fetched = true →
        (viewAfterFetch s fetched).intervalActive = false ∧
        ∀ r : ScanStatus, stepView (viewAfterFetch s fetched) (.auto r) = none) ∧
    (∀ (s : ScanView) (evs : List FetchEvent) (s2 : ScanView),
        s.intervalActive = false →
        (∀ e ∈ evs, terminal (eventResponse e) = true) →
        runViewEvents s evs = some s2 →
        (∀ r : ScanStatus, FetchEvent.auto r ∉ evs) ∧ s2.intervalActive = false) ∧
    (∀ s : ScanView, (viewAfterFetch s .running).intervalActive = true) ∧
    pollIntervalMs = 5000 := by
  refine ⟨?_, ?_, ?_, rfl⟩
  · intro s fetched hterm
    have hinact : (viewAfterFetch s fetched).intervalActive = false := by
      cases fetched <;> simp_all [viewAfterFetch, terminal]
    exact ⟨hinact, fun r => by simp [stepView, hinact]⟩
  · intro s evs s2 hinact hterm hrun
    exact runViewEvents_inactive_terminal evs s s2 hinact hterm hrun
  · intro s
    simp [viewAfterFetch]

/-- Witness for C8: after an automatic poll of a running scan reports
`completed`, the interval is gone and a further automatic tick is
impossible. -/
theorem scan_polling_terminates_witness :
    (viewAfterFetch (mountView (demoScan .running 10 5)) .completed).intervalActive = false ∧
    stepView (viewAfterFetch (mountView (demoScan .running 10 5)) .completed)
        (.auto .completed) = none :=
  ⟨(scan_polling_terminates.1 (mountView (demoScan .running 10 5)) .completed rfl).1,
   (scan_polling_terminates.1 (mountView (demoScan .running 10 5)) .completed rfl).2 .completed⟩

/-- One applied fetch changes the callback count by one exactly when the
response is completed. -/
theorem stepView_calls (s : ScanView) (e : FetchEvent) (s2 : ScanView)
    (h : stepView s e = some s2) :
    s2.completeCalls = s.completeCalls +
      (if eventResponse e == ScanStatus.completed then 1 else 0) := by
  cases e with
  | auto r =>
    by_cases hi : s.intervalActive
    · simp only [stepView, hi, if_true, Option.some.injEq] at h
      rw [← h]
      cases r <;> simp [viewAfterFetch, eventResponse]
    · simp [stepView, hi] at h
  | manual r =>
    simp only [stepView, Option.some.injEq] at h
    rw [← h]
    cases r <;> simp [viewAfterFetch, eventResponse]

/-- Over a valid trace the callback count grows by exactly the number of
fetches whose response is completed. -/
theorem runViewEvents_calls (evs : List FetchEvent) :
    ∀ (s s2 : ScanView), runViewEvents s evs = some s2 →
      s2.completeCalls = s.completeCalls +
        (evs.filter (fun e => eventResponse e == ScanStatus.completed)).length := by
  induction evs with
  | nil =>
    intro s s2 h
    simp only [runViewEvents, Option.some.injEq] at h
    rw [← h]
    simp
  | cons e rest ih =>
    intro s s2 h
    rw [runViewEvents] at h
    cases hs : stepView s e with
    | none =>
      rw [hs] at h
      exact absurd h (by simp)
    | some smid =>
      rw [hs] at h
      have h1 := stepView_calls s e smid hs
      have h2 := ih smid s2 h
      rcases Bool.eq_false_or_eq_true (eventResponse e == ScanStatus.completed) with hc | hc <;>
        simp [List.filter_cons, hc, h1] at h2 ⊢ <;> omega

/-- In a valid trace of automatic ticks only, the callback fires at most
once: the tick that observes completed uninstalls the interval, and from
an uninstalled interval no further tick is possible. -/
theorem runViewEvents_auto_once (evs : List FetchEvent) :
    ∀ (s s2 : ScanView),
      (∀ e ∈ evs, ∃ r, e = FetchEvent.auto r) →
      runViewEvents s evs = some s2 →
      s2.completeCalls ≤ s.completeCalls + 1 ∧
        (s.intervalActive = false → s2 = s) := by
  induction evs with
  | nil =>
    intro s s2 _ h
    simp only [runViewEvents, Option.some.injEq] at h
    rw [← h]
    exact ⟨by omega, fun _ => rfl⟩
  | cons e rest ih =>
    intro s s2 hauto h
    obtain ⟨r, rfl⟩ := hauto e (by simp)
    rw [runViewEvents] at h
    by_cases hi : s.intervalActive
    · simp only [stepView, hi, if_true] at h
      have ihr := ih (viewAfterFetch s r) s2
        (fun e he => hauto e (List.mem_cons_of_mem _ he)) h
      constructor
      · cases r with
        | running =>
          have : (viewAfterFetch s .running).completeCalls = s.completeCalls := by
            simp [viewAfterFetch]
          omega
        | completed =>
          have hmid : (viewAfterFetch s .completed).intervalActive = false := by
            simp [viewAfterFetch]
          have := ihr.2 hmid
          rw [this]
          simp [viewAfterFetch]
        | failed =>
          have hmid : (viewAfterFetch s .failed).intervalActive = false := by
            simp [viewAfterFetch]
          have := ihr.2 hmid
          rw [this]
          simp [viewAfterFetch]
      · intro hfalse
        rw [hi] at hfalse
        exact absurd hfalse (by simp)
    · simp [stepView, hi] at h

/-! ### Claim C9 -/

/-- Counterexample for C9 as stated: from a running scan, an automatic
poll observes `completed` (the transition edge, first invocation) and a
later manual refresh observes the scan already completed — and the
callback fires again, for a total of two invocations, because
`updateScanStatus` invokes it on every fetch whose response is completed,
not only at the edge. -/
theorem scan_complete_callback_twice :
    (runViewEvents (mountView (demoScan .running 10 5))
        [FetchEvent.auto .completed, FetchEvent.manual .completed]).map
      (fun s => s.completeCalls) = some 2 := by decide

/-- C9 (amended): the scan-complete callback is invoked once per status
fetch whose response is completed — so over any valid trace the number of
invocations equals the number of completed-reporting fetches; among
automatic polls alone it is invoked at most once, because the poll that
observes completed also uninstalls the interval, but a manual refresh
observing the already-completed scan invokes it again. -/
theorem scan_complete_callback_per_fetch :
    (∀ (s : ScanView) (fetched : ScanStatus),
        (viewAfterFetch s fetched).completeCalls =
          s.completeCalls + (if fetched = ScanStatus.completed then 1 else 0)) ∧
    (∀ (s : ScanView) (evs : List FetchEvent) (s2 : ScanView),
        runViewEvents s evs = some s2 →
        s2.completeCalls = s.completeCalls +
          (evs.filter (fun e => eventResponse e == ScanStatus.completed)).length) ∧
    (∀ (s : ScanView) (evs : List FetchEvent) (s2 : ScanView),
        s.completeCalls = 0 →
        (∀ e ∈ evs, ∃ r, e = FetchEvent.auto r) →
        runViewEvents s evs = some s2 →
        s2.completeCalls ≤ 1) := by
  refine ⟨fun s fetched => rfl, fun s evs s2 => runViewEvents_calls evs s s2, ?_⟩
  intro s evs s2 h0 hauto hrun
  have := (runViewEvents_auto_once evs s s2 hauto hrun).1
  omega

/-- Witness for C9 (amended): the two-fetch trace of the counterexample
has exactly as many invocations as completed-reporting fetches, namely
two. -/
theorem scan_complete_callback_per_fetch_witness :
    (⟨ScanStatus.completed, false, 2⟩ : ScanView).completeCalls =
      (mountView (demoScan .running 10 5)).completeCalls +
        (([FetchEvent.auto .completed, FetchEvent.manual .completed]).filter
          (fun e => eventResponse e == ScanStatus.completed)).length :=
  scan_complete_callback_per_fetch.2.1 (mountView (demoScan .running 10 5))
    [FetchEvent.auto .completed, FetchEvent.manual .completed]
    ⟨ScanStatus.completed, false, 2⟩ (by decide)
